import Mathlib

/-!
Verification of the payment-provider adapter (`src/lnbits/wallets/strike.py`)
and the room-notifier websocket endpoint
(`src/lnbits/extensions/diagonalley/views.py`) against their specification.

The Python code is shallowly embedded: JSON-decoded Python values become the
inductive `Json`; Python exceptions become the inductive `PyExc` and fallible
steps return `Except PyExc _`; HTTP traffic is modelled by a `Response` the
environment supplies for each request the adapter performs, and each embedded
method also returns the list of `Request`s it issued.  Machine floats in the
source only ever hold decimal amounts; they are modelled as exact rationals
(`ℚ`), so the theorems about amount arithmetic are about the ideal decimal
arithmetic the code manipulates, not IEEE rounding.
-/

/-- A Python value obtained by decoding JSON (`json.loads` / `Response.json()`):
`null`/`None`, booleans, numbers, strings, lists and string-keyed dicts.
`Json.null` also stands for the Python constant `None` wherever the adapter
passes `None` itself. -/
inductive Json where
  | null : Json
  | bool (b : Bool) : Json
  | num (q : ℚ) : Json
  | str (s : String) : Json
  | arr (xs : List Json) : Json
  | obj (fields : List (String × Json)) : Json

/-- An HTTP response as the adapter observes it through httpx: the code only
ever branches on `is_error` (true exactly for 4xx/5xx; httpx treats every
other status as non-error) and on whether the body parses as JSON
(`body = none` models a body that `Response.json()` cannot decode). -/
structure Response where
  is_error : Bool
  body : Option Json

/-- The Python exceptions the embedded code can raise.  `httpStatusError`
carries the offending response, as `httpx.HTTPStatusError.response` does.
All of them derive from `Exception`, so a bare `except Exception` catches
every one of them. -/
inductive PyExc where
  | transportError : PyExc
  | httpStatusError (resp : Response) : PyExc
  | jsonDecodeError : PyExc
  | keyError : PyExc
  | typeError : PyExc
  | attributeError : PyExc
  | valueError : PyExc

/-- `Response.json()`: the decoded body, or `json.JSONDecodeError`. -/
def Response.json (r : Response) : Except PyExc Json :=
  match r.body with
  | some j => Except.ok j
  | none => Except.error PyExc.jsonDecodeError

/-- `Response.raise_for_status()`: raises `httpx.HTTPStatusError` on a 4xx/5xx
response and returns the response unchanged otherwise. -/
def Response.raise_for_status (r : Response) : Except PyExc Unit :=
  if r.is_error then Except.error (PyExc.httpStatusError r) else Except.ok ()

/-- HTTP methods used by the adapter. -/
inductive HttpMethod where
  | get : HttpMethod
  | post : HttpMethod
  | patch : HttpMethod

/-- A request the adapter issues: method, path relative to the
`{endpoint}/v1` base URL, and optional JSON payload. -/
structure Request where
  method : HttpMethod
  path : String
  payload : Option Json

/-- Python subscription `j[k]` with a string key: on a dict it returns the
value of the first matching key or raises `KeyError`; on every other
JSON-decoded value a string subscript raises `TypeError`. -/
def jsonGet (j : Json) (k : String) : Except PyExc Json :=
  match j with
  | Json.obj fields =>
      match fields.lookup k with
      | some v => Except.ok v
      | none => Except.error PyExc.keyError
  | _ => Except.error PyExc.typeError

/-- Python `==` between a JSON-decoded value and a string literal: true
exactly when the value is that string. -/
def jsonEqStr (j : Json) (s : String) : Bool :=
  match j with
  | Json.str t => t == s
  | _ => false

/-- Python attribute access `obj.attr` on a JSON-decoded value.  None of
`dict`, `list`, `str`, numbers, `bool` or `None` has a `state` (or any other
data) attribute, so the access always raises `AttributeError`. -/
def pyGetAttr (_j : Json) (_attr : String) : Except PyExc Json :=
  Except.error PyExc.attributeError

/-- Python `str()` as used by f-string interpolation of a JSON-decoded value
into a URL path.  Strings interpolate verbatim and `None` as "None"; the
remaining reprs are abbreviated (no claim depends on them). -/
def pyStr : Json → String
  | Json.str s => s
  | Json.null => "None"
  | Json.bool true => "True"
  | Json.bool false => "False"
  | Json.num q => toString q
  | Json.arr _ => "[list]"
  | Json.obj _ => "[dict]"

/-- Python `int()` on a number: truncation toward zero. -/
def pyInt (q : ℚ) : ℤ :=
  if 0 ≤ q then ⌊q⌋ else ⌈q⌉

/-- Python `round()` on a number: round-half-to-even (banker's rounding). -/
def pyRound (q : ℚ) : ℤ :=
  if q - (⌊q⌋ : ℚ) < 1/2 then ⌊q⌋
  else if 1/2 < q - (⌊q⌋ : ℚ) then ⌊q⌋ + 1
  else if ⌊q⌋ % 2 = 0 then ⌊q⌋ else ⌊q⌋ + 1

/-- Numeric value of a list of decimal digit characters (already validated). -/
def decDigitsVal (cs : List Char) : ℚ :=
  cs.foldl (fun acc c => acc * 10 + ((c.toNat - 48 : ℕ) : ℚ)) 0

/-- Decimal string accepted by Python's `float()`: optional sign, digits,
optional fractional part.  (Exponent and underscore forms, infinities and
whitespace trimming are outside what the adapter's inputs use and map to
`none` = `ValueError` here.) -/
def parseDecimal (s : String) : Option ℚ :=
  let core : List Char → Option ℚ := fun cs =>
    let intPart := cs.takeWhile Char.isDigit
    match cs.dropWhile Char.isDigit with
    | [] => if intPart.isEmpty then none else some (decDigitsVal intPart)
    | c :: frac =>
        if c == '.' && frac.all Char.isDigit && !(intPart.isEmpty && frac.isEmpty) then
          some (decDigitsVal intPart + decDigitsVal frac / (10 : ℚ) ^ frac.length)
        else none
  match s.data with
  | [] => none
  | c :: rest =>
      if c == '-' then (core rest).map Neg.neg
      else if c == '+' then core rest
      else core s.data

/-- Python `float()` on a JSON-decoded value: numbers (and booleans) convert,
strings are parsed as decimals (`ValueError` on failure), everything else
raises `TypeError`. -/
def pyFloat (j : Json) : Except PyExc ℚ :=
  match j with
  | Json.num q => Except.ok q
  | Json.bool true => Except.ok 1
  | Json.bool false => Except.ok 0
  | Json.str s =>
      match parseDecimal s with
      | some q => Except.ok q
      | none => Except.error PyExc.valueError
  | _ => Except.error PyExc.typeError

/-- Lower-case hex digit. -/
def hexDigit (n : ℕ) : Char :=
  if n < 10 then Char.ofNat (48 + n) else Char.ofNat (87 + n)

/-- Python `bytes.hex()`: two lower-case hex digits per byte. -/
def hexOfBytes (bs : List ℕ) : String :=
  String.mk (bs.foldr (fun b acc => hexDigit (b % 256 / 16) :: hexDigit (b % 16) :: acc) [])

/-- Modelled from the spec: `StatusResponse` from `lnbits/wallets/base.py`
(not under `src/`).  "{ error_message: optional string, balance_msat:
integer }". -/
structure StatusResponse where
  error_message : Option String
  balance_msat : ℤ

/-- Modelled from the spec: `InvoiceResponse` from `lnbits/wallets/base.py`
(not under `src/`).  "{ ok: bool, checking_id: optional string,
payment_request: optional string, error_message: optional string }".  The
container performs no validation: the three optional fields hold whatever
Python value the adapter passes, so they are typed as `Json` here, with
`Json.null` for `None`; the spec's invariant that they are strings or absent
is exactly what the invariant theorems below examine. -/
structure InvoiceResponse where
  ok : Bool
  checking_id : Json
  payment_request : Json
  error_message : Json

/-- Modelled from the spec: `PaymentResponse` from `lnbits/wallets/base.py`
(not under `src/`).  "{ ok: bool, checking_id: optional string, fee_msat:
optional integer, preimage: optional string, error_message: optional
string }". -/
structure PaymentResponse where
  ok : Bool
  checking_id : Json
  fee_msat : ℤ
  preimage : Json
  error_message : Json

/-- Modelled from the spec: `PaymentStatus` from `lnbits/wallets/base.py`
(not under `src/`).  The tri-state "{ paid: true | false | unknown }",
with `none` as the pending/unknown state. -/
structure PaymentStatus where
  paid : Option Bool

/-- Modelled from the spec: `PaymentPendingStatus` from
`lnbits/wallets/base.py` (not under `src/`): the pending/unknown status. -/
def PaymentPendingStatus : PaymentStatus := ⟨none⟩

/-- Modelled from the spec: `Wallet.get_error_message` from
`lnbits/wallets/base.py` (not under `src/`).  For a provider-rejected
(non-2xx) response, "message extracted from the body when parseable,
otherwise generic": the body's "message" field if it is a string, else a
generic rendering.  Every result is a string; no claim depends on the exact
wording. -/
def Wallet.get_error_message (r : Response) : String :=
  match r.body with
  | some b =>
      match jsonGet b "message" with
      | Except.ok (Json.str s) => s
      | _ => "Server error"
  | none => "Server error"

/-- Modelled from the spec: `Wallet.normalize_endpoint` from
`lnbits/wallets/base.py` (not under `src/`).  The spec only names the
configured "provider API endpoint"; the normalization (dropping a trailing
slash) is immaterial to every claim. -/
def Wallet.normalize_endpoint (e : String) : String :=
  if e.endsWith "/" then e.dropRight 1 else e

/-- The settings the adapter consumes (`lnbits.settings.settings`); a missing
value is `none` and Python truthiness also treats the empty string as
missing. -/
structure StrikeSettings where
  strike_api_endpoint : Option String
  strike_token : Option String
  strike_currency : Option String

/-- Python truthiness of an optional string: false for `None` and for "". -/
def pyTruthy : Option String → Bool
  | none => false
  | some s => !(s == "")

/-- `StrikeWallet.__init__`, line 16: the fixed supported settlement set. -/
def supported_currencies : List String := ["BTC", "USD", "EUR", "USDT", "GBP"]

/-- The state a successfully constructed `StrikeWallet` carries (endpoint,
bearer token, settlement currency read back from settings). -/
structure StrikeCfg where
  endpoint : String
  token : String
  currency : String

/-- `StrikeWallet.__init__` (strike.py lines 15-35): validates the three
settings in order, raising `ValueError` on a falsy endpoint, a falsy token,
or a currency that is falsy or outside `supported_currencies`; otherwise it
normalizes the endpoint and builds the client.  The second component is the
list of provider requests construction performs: none (the `httpx.AsyncClient`
constructor opens no connection). -/
def StrikeWallet.init (s : StrikeSettings) : Except String StrikeCfg × List Request :=
  if !pyTruthy s.strike_api_endpoint then
    (Except.error "cannot initialize StrikeWallet: missing strike_api_endpoint", [])
  else if !pyTruthy s.strike_token then
    (Except.error "cannot initialize StrikeWallet: missing strike_token", [])
  else if !(pyTruthy s.strike_currency && supported_currencies.contains (s.strike_currency.getD "")) then
    (Except.error "cannot initialize StrikeWallet: missing or invalid strike_currency", [])
  else
    (Except.ok ⟨Wallet.normalize_endpoint (s.strike_api_endpoint.getD ""),
                s.strike_token.getD "", s.strike_currency.getD ""⟩, [])

/-- `StrikeWallet._current_currency` (lines 37-39): the configured settlement
currency, with `or 'BTC'` supplying a default when the setting is falsy. -/
def StrikeWallet._current_currency (cfg : StrikeCfg) : String :=
  if cfg.currency == "" then "BTC" else cfg.currency

/-- `StrikeWallet._rate_currency` (lines 41-43): the settlement currency,
except that USDT rates are quoted as USD. -/
def StrikeWallet._rate_currency (cfg : StrikeCfg) : String :=
  if StrikeWallet._current_currency cfg != "USDT" then StrikeWallet._current_currency cfg else "USD"

/-- `StrikeWallet._get_btc_amount` (lines 184-187): for a BTC rate currency,
`int(amount * 100_000_000)` (truncation); otherwise the external
`fiat_amount_as_satoshis` collaborator `f2s`. -/
def StrikeWallet._get_btc_amount (cfg : StrikeCfg) (f2s : ℚ → String → ℤ) (amount : ℚ) : ℤ :=
  if StrikeWallet._rate_currency cfg = "BTC" then pyInt (amount * 100000000)
  else f2s amount (StrikeWallet._rate_currency cfg)

/-- The `statuses` dict of `get_invoice_status` (lines 142-147), applied as
`statuses[data["state"]]`: a lookup by the decoded `state` value, raising
`KeyError` for any string outside the vocabulary or for an unhashable key. -/
def invoice_statuses (j : Json) : Except PyExc (Option Bool) :=
  match j with
  | Json.str s =>
      if s = "UNPAID" then Except.ok none
      else if s = "PENDING" then Except.ok none
      else if s = "PAID" then Except.ok (some true)
      else if s = "CANCELLED" then Except.ok (some false)
      else Except.error PyExc.keyError
  | Json.arr _ => Except.error PyExc.typeError
  | Json.obj _ => Except.error PyExc.typeError
  | _ => Except.error PyExc.keyError

/-- The `statuses` dict of `get_payment_status` (line 163), as a lookup. -/
def payment_statuses (j : Json) : Except PyExc (Option Bool) :=
  match j with
  | Json.str s =>
      if s = "PENDING" then Except.ok none
      else if s = "COMPLETED" then Except.ok (some true)
      else if s = "FAILED" then Except.ok (some false)
      else Except.error PyExc.keyError
  | Json.arr _ => Except.error PyExc.typeError
  | Json.obj _ => Except.error PyExc.typeError
  | _ => Except.error PyExc.keyError

/-- The `try` block of `get_invoice_status` (lines 149-157): a transport
error propagates; a 4xx/5xx returns pending; otherwise the body is decoded,
its `state` field looked up in the vocabulary, and the tri-state built. -/
def invoice_status_try (resp : Except PyExc Response) : Except PyExc PaymentStatus :=
  match resp with
  | Except.error e => Except.error e
  | Except.ok r =>
      if r.is_error then Except.ok PaymentPendingStatus
      else
        match r.json with
        | Except.error e => Except.error e
        | Except.ok data =>
            match jsonGet data "state" with
            | Except.error e => Except.error e
            | Except.ok st =>
                match invoice_statuses st with
                | Except.error e => Except.error e
                | Except.ok v => Except.ok ⟨v⟩

/-- `StrikeWallet.get_invoice_status` (lines 141-160): the `try` block with
its blanket `except Exception` handler returning the pending status, plus
the single GET request the method issues.  `resp` is the provider's answer
to that request (`Except.error` = transport-level failure). -/
def StrikeWallet.get_invoice_status (checking_id : String) (resp : Except PyExc Response) :
    PaymentStatus × List Request :=
  (match invoice_status_try resp with
   | Except.ok s => s
   | Except.error _ => PaymentPendingStatus,
   [⟨HttpMethod.get, "/invoices/" ++ checking_id, none⟩])

/-- The `try` block of `get_payment_status` (lines 165-173).  Note the source
reads `data.state` — attribute access on the decoded dict — not
`data["state"]`, so the lookup step always raises `AttributeError` before
the `statuses` table is consulted. -/
def payment_status_try (resp : Except PyExc Response) : Except PyExc PaymentStatus :=
  match resp with
  | Except.error e => Except.error e
  | Except.ok r =>
      if r.is_error then Except.ok PaymentPendingStatus
      else
        match r.json with
        | Except.error e => Except.error e
        | Except.ok data =>
            match pyGetAttr data "state" with
            | Except.error e => Except.error e
            | Except.ok st =>
                match payment_statuses st with
                | Except.error e => Except.error e
                | Except.ok v => Except.ok ⟨v⟩

/-- `StrikeWallet.get_payment_status` (lines 162-176): the `try` block with
its blanket handler returning `PaymentStatus(None)`, plus the single GET
request. -/
def StrikeWallet.get_payment_status (checking_id : String) (resp : Except PyExc Response) :
    PaymentStatus × List Request :=
  (match payment_status_try resp with
   | Except.ok s => s
   | Except.error _ => ⟨none⟩,
   [⟨HttpMethod.get, "/payments/" ++ checking_id, none⟩])

/-- The common `except httpx.HTTPStatusError / except Exception` tail of
`status`, `create_invoice` and `pay_invoice` (lines 72-79, 106-113, 132-139),
which in every one of the three builds a failure `InvoiceResponse`.  The
`HTTPStatusError` arm first evaluates `err.response.json()` inside its
logging f-string, so when the error body is unparseable that arm itself
raises `JSONDecodeError` out of the method instead of returning; the blanket
`except Exception` arm returns the generic unable-to-connect message. -/
def invoice_error_handler (endpoint : String) (e : PyExc) : Except PyExc InvoiceResponse :=
  match e with
  | PyExc.httpStatusError r =>
      match r.body with
      | none => Except.error PyExc.jsonDecodeError
      | some _ =>
          Except.ok ⟨false, Json.null, Json.null, Json.str (Wallet.get_error_message r)⟩
  | _ =>
      Except.ok ⟨false, Json.null, Json.null,
                 Json.str ("Unable to connect to " ++ endpoint ++ ".")⟩

/-- What `StrikeWallet.status` actually returns: a `StatusResponse` from the
`try` body, or — in both `except` arms — an `InvoiceResponse` (the source
returns the wrong container type on failure; Python does not object). -/
inductive StatusResult where
  | status (r : StatusResponse)
  | invoice (r : InvoiceResponse)

/-- Python iteration over a JSON-decoded value, as `for wallet in data` does:
lists yield their elements, dicts their keys, strings their characters;
numbers, booleans and `None` raise `TypeError`. -/
def pyIter (j : Json) : Except PyExc (List Json) :=
  match j with
  | Json.arr xs => Except.ok xs
  | Json.obj fields => Except.ok (fields.map (fun p => Json.str p.1))
  | Json.str s => Except.ok (s.data.map (fun c => Json.str (String.mk [c])))
  | _ => Except.error PyExc.typeError

/-- The generator expression of `status` (lines 58-65):
`next((wallet["total"] for wallet in data if wallet["currency"] == cur), None)`
— the `total` of the first element whose `currency` equals the settlement
currency, `none` when no element matches, propagating any subscript error
raised while scanning. -/
def find_balance (cur : String) : List Json → Except PyExc (Option Json)
  | [] => Except.ok none
  | w :: ws =>
      match jsonGet w "currency" with
      | Except.error e => Except.error e
      | Except.ok c =>
          if jsonEqStr c cur then
            match jsonGet w "total" with
            | Except.error e => Except.error e
            | Except.ok t => Except.ok (some t)
          else find_balance cur ws

/-- The `try` block of `status` (lines 52-71): fetch `/balances`, raise on
4xx/5xx, decode, scan for the settlement-currency balance, and either report
"No BTC balance" with a zero balance or convert the balance to msat. -/
def status_try (cfg : StrikeCfg) (f2s : ℚ → String → ℤ)
    (resp : Except PyExc Response) : Except PyExc StatusResult :=
  match resp with
  | Except.error e => Except.error e
  | Except.ok r =>
      match r.raise_for_status with
      | Except.error e => Except.error e
      | Except.ok _ =>
          match r.json with
          | Except.error e => Except.error e
          | Except.ok data =>
              match pyIter data with
              | Except.error e => Except.error e
              | Except.ok ws =>
                  match find_balance (StrikeWallet._current_currency cfg) ws with
                  | Except.error e => Except.error e
                  | Except.ok none =>
                      Except.ok (StatusResult.status ⟨some "No BTC balance", 0⟩)
                  | Except.ok (some bal) =>
                      match pyFloat bal with
                      | Except.error e => Except.error e
                      | Except.ok q =>
                          Except.ok (StatusResult.status
                            ⟨none, StrikeWallet._get_btc_amount cfg f2s q * 1000⟩)

/-- `StrikeWallet.status` (lines 51-79): the `try` body guarded by the common
handler tail, plus the single GET request issued.  An `Except.error` result
models an exception escaping to the caller. -/
def StrikeWallet.status (cfg : StrikeCfg) (f2s : ℚ → String → ℤ)
    (resp : Except PyExc Response) : Except PyExc StatusResult × List Request :=
  (match status_try cfg f2s resp with
   | Except.ok v => Except.ok v
   | Except.error e => (invoice_error_handler cfg.endpoint e).map StatusResult.invoice,
   [⟨HttpMethod.get, "/balances", none⟩])

/-- Python `None` / string coercion into JSON payloads. -/
def optStrJson : Option String → Json
  | none => Json.null
  | some s => Json.str s

/-- The `amount.amount` field of the invoice payload (line 86):
`amount / 100_000_000` for a BTC settlement currency, otherwise the external
`satoshis_amount_as_fiat` collaborator `s2f` applied to the rate currency. -/
def invoice_amount_json (cfg : StrikeCfg) (s2f : ℤ → String → ℚ) (amount : ℤ) : Json :=
  if StrikeWallet._current_currency cfg == "BTC" then Json.num ((amount : ℚ) / 100000000)
  else Json.num (s2f amount (StrikeWallet._rate_currency cfg))

/-- The `payload` dict of `create_invoice` (lines 82-88). -/
def invoice_payload (cfg : StrikeCfg) (s2f : ℤ → String → ℚ)
    (amount : ℤ) (memo : Option String) : Json :=
  Json.obj [("description", optStrJson memo),
            ("amount", Json.obj [("currency", Json.str (StrikeWallet._current_currency cfg)),
                                 ("amount", invoice_amount_json cfg s2f amount)])]

/-- The `payload2` dict of `create_invoice` (lines 95-98): empty, except that
a truthy (present and non-empty) `description_hash` contributes its hex. -/
def quote_payload (dh : Option (List ℕ)) : Json :=
  match dh with
  | some l =>
      if l.isEmpty then Json.obj []
      else Json.obj [("description_hash", Json.str (hexOfBytes l))]
  | none => Json.obj []

/-- The provider's answers to the (up to) two requests a two-step method
issues, in order; `Except.error` models a transport-level failure of that
request. -/
structure ProviderEnv where
  resp1 : Except PyExc Response
  resp2 : Except PyExc Response

/-- `StrikeWallet.create_invoice` (lines 81-113): build the invoice payload
(outside the `try`), POST `/invoices`, raise on 4xx/5xx, read `invoiceId`,
POST `/invoices/{checking_id}/quote` with the optional description-hash
payload, raise on 4xx/5xx, read `lnInvoice`, and return the success
`InvoiceResponse`; every exception flows to the common handler tail.  The
second component lists the requests issued up to the point of return. -/
def StrikeWallet.create_invoice (cfg : StrikeCfg) (s2f : ℤ → String → ℚ)
    (amount : ℤ) (memo : Option String) (dh : Option (List ℕ)) (env : ProviderEnv) :
    Except PyExc InvoiceResponse × List Request :=
  let req1 : Request := ⟨HttpMethod.post, "/invoices", some (invoice_payload cfg s2f amount memo)⟩
  let fail := fun (e : PyExc) (reqs : List Request) => (invoice_error_handler cfg.endpoint e, reqs)
  match env.resp1 with
  | Except.error e => fail e [req1]
  | Except.ok r =>
      match r.raise_for_status with
      | Except.error e => fail e [req1]
      | Except.ok _ =>
          match r.json with
          | Except.error e => fail e [req1]
          | Except.ok body1 =>
              match jsonGet body1 "invoiceId" with
              | Except.error e => fail e [req1]
              | Except.ok checking_id =>
                  let req2 : Request := ⟨HttpMethod.post,
                    "/invoices/" ++ pyStr checking_id ++ "/quote", some (quote_payload dh)⟩
                  match env.resp2 with
                  | Except.error e => fail e [req1, req2]
                  | Except.ok r1 =>
                      match r1.raise_for_status with
                      | Except.error e => fail e [req1, req2]
                      | Except.ok _ =>
                          match r1.json with
                          | Except.error e => fail e [req1, req2]
                          | Except.ok body2 =>
                              match jsonGet body2 "lnInvoice" with
                              | Except.error e => fail e [req1, req2]
                              | Except.ok payment_request =>
                                  (Except.ok ⟨true, checking_id, payment_request, Json.null⟩,
                                   [req1, req2])

/-- What `StrikeWallet.pay_invoice` returns: a `PaymentResponse` on success,
and — as in `status` — an `InvoiceResponse` from both failure arms. -/
inductive PayResult where
  | payment (r : PaymentResponse)
  | invoice (r : InvoiceResponse)

/-- The `payload` dict of `pay_invoice` (lines 117-118). -/
def pay_payload (cfg : StrikeCfg) (bolt11 : String) : Json :=
  Json.obj [("lnInvoice", Json.str bolt11),
            ("sourceCurrency", Json.str (StrikeWallet._current_currency cfg))]

/-- `StrikeWallet.pay_invoice` (lines 115-139): POST a payment quote, raise
on 4xx/5xx, PATCH `/payment-quotes/{paymentQuoteId}/execute`, raise on
4xx/5xx, then read `paymentId` and convert `totalFee.amount` to msat.
`fee_limit_msat` is accepted but never enforced, as in the source.  Every
exception flows to the common handler tail. -/
def StrikeWallet.pay_invoice (cfg : StrikeCfg) (f2s : ℚ → String → ℤ)
    (bolt11 : String) (_fee_limit_msat : ℤ) (env : ProviderEnv) :
    Except PyExc PayResult × List Request :=
  let req1 : Request := ⟨HttpMethod.post, "/payment-quotes/lightning", some (pay_payload cfg bolt11)⟩
  let fail := fun (e : PyExc) (reqs : List Request) =>
    ((invoice_error_handler cfg.endpoint e).map PayResult.invoice, reqs)
  match env.resp1 with
  | Except.error e => fail e [req1]
  | Except.ok r =>
      match r.raise_for_status with
      | Except.error e => fail e [req1]
      | Except.ok _ =>
          match r.json with
          | Except.error e => fail e [req1]
          | Except.ok body1 =>
              match jsonGet body1 "paymentQuoteId" with
              | Except.error e => fail e [req1]
              | Except.ok quoteId =>
                  let req2 : Request := ⟨HttpMethod.patch,
                    "/payment-quotes/" ++ pyStr quoteId ++ "/execute", none⟩
                  match env.resp2 with
                  | Except.error e => fail e [req1, req2]
                  | Except.ok r1 =>
                      match r1.raise_for_status with
                      | Except.error e => fail e [req1, req2]
                      | Except.ok _ =>
                          match r1.json with
                          | Except.error e => fail e [req1, req2]
                          | Except.ok payment =>
                              match jsonGet payment "paymentId" with
                              | Except.error e => fail e [req1, req2]
                              | Except.ok checking_id =>
                                  match (jsonGet payment "totalFee").bind (fun tf => jsonGet tf "amount") with
                                  | Except.error e => fail e [req1, req2]
                                  | Except.ok feeJson =>
                                      match pyFloat feeJson with
                                      | Except.error e => fail e [req1, req2]
                                      | Except.ok feeAmt =>
                                          (Except.ok (PayResult.payment
                                            ⟨true, checking_id,
                                             StrikeWallet._get_btc_amount cfg f2s feeAmt * 1000,
                                             Json.null, Json.null⟩),
                                           [req1, req2])

/-- How a run of the paid-invoices generator left off, observed over a finite
trace: `stopped` = the `while settings.lnbits_running` test read false and the
generator finished; `blocked` = the flag read true and the generator is
suspended inside `await self.queue.get()` with nothing arrived yet;
`running` = the observation window ended between iterations. -/
inductive StreamEnd where
  | stopped : StreamEnd
  | blocked : StreamEnd
  | running : StreamEnd

/-- `StrikeWallet.paid_invoices_stream` (lines 178-182) over a finite trace:
`flags` is the successive values the loop's `settings.lnbits_running` test
reads (one per iteration), `queue` the checking_ids pushed into the internal
unbounded `asyncio.Queue` in arrival order.  The result is the sequence the
generator yields and how the run left off. -/
def StrikeWallet.paid_invoices_stream : List Bool → List String → List String × StreamEnd
  | [], _ => ([], StreamEnd.running)
  | false :: _, _ => ([], StreamEnd.stopped)
  | true :: _, [] => ([], StreamEnd.blocked)
  | true :: fs, x :: rest =>
      let r := StrikeWallet.paid_invoices_stream fs rest
      (x :: r.1, r.2)

/-- Modelled from the spec: the room-notifier state
(`lnbits/extensions/diagonalley/notifier.py` is not under `src/`): "mapping
from room id to set of active connections", where an absent room and an empty
room differ (`get_members` can report absence) and the entry is removed when
its member set empties.  Connections are abstract handles (`ℕ`). -/
structure Notifier where
  rooms : String → Option (List ℕ)

/-- Modelled from the spec: `Notifier.get_members(room_id)` — "read-only
lookup", "set of connections | absent". -/
def Notifier.get_members (n : Notifier) (room : String) : Option (List ℕ) :=
  n.rooms room

/-- Modelled from the spec: `Notifier.connect(connection, room_id)` — "adds
it to the room's member set.  Idempotent under duplicate calls for the same
connection/room pair"; rooms are "created implicitly on first join". -/
def Notifier.connect (n : Notifier) (ws : ℕ) (room : String) : Notifier :=
  match n.rooms room with
  | none => ⟨fun r => if r = room then some [ws] else n.rooms r⟩
  | some ms =>
      if ms.contains ws then n
      else ⟨fun r => if r = room then some (ms ++ [ws]) else n.rooms r⟩

/-- Modelled from the spec: `Notifier.remove(connection, room_id)` — detaches
the connection, "safe to call even if the connection is already absent";
the room entry is dropped once its member set becomes empty. -/
def Notifier.remove (n : Notifier) (ws : ℕ) (room : String) : Notifier :=
  match n.rooms room with
  | none => n
  | some ms =>
      let ms2 := ms.erase ws
      if ms2.isEmpty then ⟨fun r => if r = room then none else n.rooms r⟩
      else ⟨fun r => if r = room then some ms2 else n.rooms r⟩

/-- Modelled from the spec: the fan-out of `Notifier._notify(message,
room_id)` — "delivers it to every member of the room", as the list of
(recipient, delivered Python value) pairs.  (JSON serialization on the wire
is a bijective renaming and is left implicit.) -/
def Notifier._notify (msg : Json) (room : String) (n : Notifier) : List (ℕ × Json) :=
  ((n.rooms room).getD []).map (fun w => (w, msg))

/-- Python `d["room_name"] = room` on a decoded value: on a dict, overwrite
the existing key or append it; on any other value the item assignment raises
`TypeError`. -/
def jsonSetRoom (d : Json) (room : String) : Except PyExc Json :=
  match d with
  | Json.obj fields =>
      if (fields.lookup "room_name").isSome then
        Except.ok (Json.obj (fields.map (fun p =>
          if p.1 = "room_name" then ("room_name", Json.str room) else p)))
      else Except.ok (Json.obj (fields ++ [("room_name", Json.str room)]))
  | _ => Except.error PyExc.typeError

/-- One inbound event of a websocket connection: a received text frame, or
the disconnect signal (`WebSocketDisconnect` raised by `receive_text`). -/
inductive WsEvent where
  | frame (data : String) : WsEvent
  | disconnect : WsEvent

/-- How `websocket_endpoint` left off after a finite event trace: still
inside the receive loop, closed normally (`WebSocketDisconnect` caught and
`remove` run), or aborted by an uncaught exception (no `remove`). -/
inductive WsOutcome where
  | live : WsOutcome
  | closed : WsOutcome
  | crashed (e : PyExc) : WsOutcome

/-- The receive loop of `websocket_endpoint` (views.py lines 174-192),
processing one event per iteration.  For a frame: `json.loads` it (`loads`
is the parse function; an error here escapes, since only
`WebSocketDisconnect` is caught), assign `d["room_name"] = room_name`
(building the tagged dict, which the source then never uses), re-`connect`
when the sender has dropped out of the member set, and fan out — passing the
RAW frame string `data`, not the tagged dict `d`, exactly as line 189 does.
Accumulates the (recipient, payload) deliveries. -/
def ws_loop (loads : String → Except PyExc Json) (room : String) (ws : ℕ) :
    Notifier → List WsEvent → List (ℕ × Json) → Notifier × List (ℕ × Json) × WsOutcome
  | n, [], acc => (n, acc, WsOutcome.live)
  | n, WsEvent.disconnect :: _, acc => (n.remove ws room, acc, WsOutcome.closed)
  | n, WsEvent.frame data :: rest, acc =>
      match loads data with
      | Except.error e => (n, acc, WsOutcome.crashed e)
      | Except.ok d =>
          match jsonSetRoom d room with
          | Except.error e => (n, acc, WsOutcome.crashed e)
          | Except.ok _tagged =>
              let room_members := (n.get_members room).getD []
              let n1 := if room_members.contains ws then n else n.connect ws room
              ws_loop loads room ws n1 rest (acc ++ Notifier._notify (Json.str data) room n1)

/-- `websocket_endpoint` (views.py lines 168-192): accept/register the
connection via `connect`, then run the receive loop over the event trace. -/
def websocket_endpoint (loads : String → Except PyExc Json) (room : String) (ws : ℕ)
    (n : Notifier) (events : List WsEvent) : Notifier × List (ℕ × Json) × WsOutcome :=
  ws_loop loads room ws (n.connect ws room) events []

/-- The spec's invariant on `InvoiceResponse`: success carries both handles,
failure carries a message ("present" = not Python `None`). -/
def invoice_response_invariant (r : InvoiceResponse) : Prop :=
  (r.ok = true → r.checking_id ≠ Json.null ∧ r.payment_request ≠ Json.null) ∧
  (r.ok = false → r.error_message ≠ Json.null)

/-- Every `InvoiceResponse` the common handler tail returns is a failure
response carrying a string message. -/
theorem invoice_error_handler_shape (ep : String) (e : PyExc) (r : InvoiceResponse)
    (h : invoice_error_handler ep e = Except.ok r) :
    r.ok = false ∧ ∃ s, r.error_message = Json.str s := by
  rcases e with _ | ⟨ie, bd⟩ | _ | _ | _ | _ | _
  case httpStatusError =>
    rcases bd with _ | b
    · exact absurd h (by simp [invoice_error_handler])
    · unfold invoice_error_handler at h
      injection h with h2
      rw [← h2]
      exact ⟨rfl, _, rfl⟩
  all_goals (unfold invoice_error_handler at h; injection h with h2; rw [← h2]; exact ⟨rfl, _, rfl⟩)

/-- A failure response with a string message satisfies the invariant. -/
theorem invariant_of_shape (r : InvoiceResponse)
    (h : r.ok = false ∧ ∃ s, r.error_message = Json.str s) :
    invoice_response_invariant r := by
  obtain ⟨hok, s, hmsg⟩ := h
  constructor
  · intro ht
    rw [hok] at ht
    cases ht
  · intro _
    rw [hmsg]
    exact fun hc => Json.noConfusion hc

/-- C2: the claim says a 2xx payment response whose `state` is COMPLETED
yields `paid = true` (and FAILED yields `false`, PENDING `unknown`).  On the
code this is false: `get_payment_status` reads `data.state` — attribute
access on the decoded dict, which always raises `AttributeError` — so even
for the well-formed COMPLETED body the blanket handler returns the unknown
status, although the method's own `statuses` vocabulary maps COMPLETED to
`true`.  The evaluations below exhibit exactly that divergence. -/
theorem c2_payment_status_completed_not_mapped :
    (StrikeWallet.get_payment_status "p1"
        (Except.ok ⟨false, some (Json.obj [("state", Json.str "COMPLETED")])⟩)).1 = ⟨none⟩ ∧
    (StrikeWallet.get_payment_status "p1"
        (Except.ok ⟨false, some (Json.obj [("state", Json.str "FAILED")])⟩)).1 = ⟨none⟩ ∧
    payment_statuses (Json.str "COMPLETED") = Except.ok (some true) ∧
    payment_statuses (Json.str "FAILED") = Except.ok (some false) :=
  ⟨rfl, rfl, rfl, rfl⟩

/-- C3 counterexample: the claim says `_get_btc_amount(x)` equals
`round(x * 100_000_000)` whenever the rate currency is BTC.  The source uses
`int(...)`, which truncates toward zero, so at one and a half satoshi
(x = 3/200000000 BTC) the code yields 1 while rounding yields 2. -/
theorem c3_counterexample_round :
    StrikeWallet._get_btc_amount ⟨"ep", "tok", "BTC"⟩ (fun _ _ => 0) (3/200000000) ≠
      pyRound ((3/200000000 : ℚ) * 100000000) := by
  have hrate : StrikeWallet._rate_currency ⟨"ep", "tok", "BTC"⟩ = "BTC" := rfl
  have h1 : StrikeWallet._get_btc_amount ⟨"ep", "tok", "BTC"⟩ (fun _ _ => 0) (3/200000000) =
      pyInt ((3/200000000 : ℚ) * 100000000) := by
    rw [StrikeWallet._get_btc_amount, if_pos hrate]
  rw [h1]
  have h2 : pyInt ((3/200000000 : ℚ) * 100000000) = 1 := by norm_num [pyInt]
  have h3 : pyRound ((3/200000000 : ℚ) * 100000000) = 2 := by norm_num [pyRound]
  rw [h2, h3]
  decide

/-- C3 amended: whenever the rate currency is BTC, `_get_btc_amount(x)` is
exactly `int(x * 100_000_000)` — truncation toward zero, not `round` — and
the conversion round-trips on integer satoshi amounts: `s` sats sent as
`s / 1e8` BTC converts back to exactly `s` (in the exact rational model of
the decimal amounts). -/
theorem c3_btc_amount_truncates_and_roundtrips :
    ∀ (cfg : StrikeCfg) (f2s : ℚ → String → ℤ) (x : ℚ) (s : ℤ),
      StrikeWallet._rate_currency cfg = "BTC" →
      StrikeWallet._get_btc_amount cfg f2s x = pyInt (x * 100000000) ∧
      StrikeWallet._get_btc_amount cfg f2s ((s : ℚ) / 100000000) = s := by
  intro cfg f2s x s h
  have key : ∀ y : ℚ, StrikeWallet._get_btc_amount cfg f2s y = pyInt (y * 100000000) := by
    intro y
    rw [StrikeWallet._get_btc_amount, if_pos h]
  refine ⟨key x, ?_⟩
  rw [key]
  have h2 : ((s : ℚ) / 100000000) * 100000000 = (s : ℚ) := by
    field_simp
  rw [h2, pyInt]
  rcases le_or_lt 0 ((s : ℚ)) with h1 | h1
  · rw [if_pos h1, Int.floor_intCast]
  · rw [if_neg (not_le.mpr h1), Int.ceil_intCast]

/-- C3 witness: 1000 sats round-trip through the BTC conversion. -/
theorem c3_roundtrip_witness :
    StrikeWallet._get_btc_amount ⟨"ep", "tok", "BTC"⟩ (fun _ _ => 0) (((1000 : ℤ) : ℚ) / 100000000) = 1000 :=
  (c3_btc_amount_truncates_and_roundtrips ⟨"ep", "tok", "BTC"⟩ (fun _ _ => 0) 0 1000 rfl).2

/-- C6: the claim says `status` never raises and degrades every failure to a
returned value.  The code violates this on one path: when `/balances`
answers 4xx/5xx with a body that is not valid JSON, the `HTTPStatusError`
handler's log line evaluates `err.response.json()`, which raises
`JSONDecodeError` out of `status` to the caller (first conjunct).  The rest
of the claim matches the code: in particular, a 2xx balance list with no
entry for the settlement currency yields `StatusResponse("No BTC balance", 0)`
(second conjunct), and a transport error yields the returned generic-failure
value rather than an exception (third conjunct). -/
theorem c6_status_unparseable_error_body_raises :
    (StrikeWallet.status ⟨"ep", "tok", "BTC"⟩ (fun _ _ => 0)
        (Except.ok ⟨true, none⟩)).1 = Except.error PyExc.jsonDecodeError ∧
    (StrikeWallet.status ⟨"ep", "tok", "BTC"⟩ (fun _ _ => 0)
        (Except.ok ⟨false, some (Json.arr [])⟩)).1 =
      Except.ok (StatusResult.status ⟨some "No BTC balance", 0⟩) ∧
    (StrikeWallet.status ⟨"ep", "tok", "BTC"⟩ (fun _ _ => 0)
        (Except.error PyExc.transportError)).1 =
      Except.ok (StatusResult.invoice
        ⟨false, Json.null, Json.null, Json.str ("Unable to connect to " ++ "ep" ++ ".")⟩) :=
  ⟨rfl, rfl, rfl⟩

/-- C7: the claim (like the spec's scenario) says the payload delivered to
the room is the parsed frame tagged with `room_name`.  The code builds the
tagged dict `d` (line 177) but then passes the raw frame string `data` to
`_notify` (line 189), so both members of the room receive the untagged raw
frame.  Below, with members 0 and 1 joined to "order-42" and member 0
sending a frame that parses to the dict with a "text" entry, both deliveries
carry the raw string — which is not the tagged object the claim promises.
(The claim's other steps — tagging `d`, re-`connect` on membership drift,
`remove` on disconnect — do match the code; the forwarding step is the
slip.) -/
theorem c7_notifier_forwards_raw_frame :
    (websocket_endpoint
        (fun s => if s = "\x7b\"text\": \"hi\"\x7d"
                  then Except.ok (Json.obj [("text", Json.str "hi")])
                  else Except.error PyExc.jsonDecodeError)
        "order-42" 0
        (Notifier.connect (Notifier.connect ⟨fun _ => none⟩ 0 "order-42") 1 "order-42")
        [WsEvent.frame "\x7b\"text\": \"hi\"\x7d"]).2 =
      ([(0, Json.str "\x7b\"text\": \"hi\"\x7d"), (1, Json.str "\x7b\"text\": \"hi\"\x7d")],
       WsOutcome.live) ∧
    jsonSetRoom (Json.obj [("text", Json.str "hi")]) "order-42" =
      Except.ok (Json.obj [("text", Json.str "hi"), ("room_name", Json.str "order-42")]) ∧
    Json.str "\x7b\"text\": \"hi\"\x7d" ≠
      Json.obj [("text", Json.str "hi"), ("room_name", Json.str "order-42")] :=
  ⟨rfl, rfl, fun h => Json.noConfusion h⟩

/-- The error situations of claim C1: the status request failed at transport
level, or the provider answered with an error status, an unparseable body,
or a body whose `state` field cannot be read. -/
def malformed_status_response (resp : Except PyExc Response) : Prop :=
  (∃ e, resp = Except.error e) ∨
  ∃ r, resp = Except.ok r ∧
    (r.is_error = true ∨ r.body = none ∨
     ∃ b, r.body = some b ∧ ∀ v, jsonGet b "state" ≠ Except.ok v)

/-- `get_payment_status` returns the unknown status on every input: the
`data.state` attribute access raises before the vocabulary is consulted. -/
theorem payment_status_always_unknown (checking_id : String) (resp : Except PyExc Response) :
    (StrikeWallet.get_payment_status checking_id resp).1.paid = none := by
  rcases resp with e | ⟨ie, bd⟩
  · rfl
  · rcases ie
    · rcases bd with _ | b <;> rfl
    · rfl

/-- The invoice vocabulary sends only the string CANCELLED to `false`. -/
theorem invoice_statuses_false_iff_cancelled (st : Json)
    (h : invoice_statuses st = Except.ok (some false)) : st = Json.str "CANCELLED" := by
  rcases st with _ | b | q | s | xs | fs <;> simp only [invoice_statuses] at h
  case str =>
    split_ifs at h with h1 h2 h3 h4 <;> simp_all
  all_goals exact absurd h (by simp)

/-- C1: on every transport error, error response, unparseable body or body
without a readable `state` field, both `get_invoice_status` and
`get_payment_status` return the pending/unknown status — never the terminal
failure; and `paid = false` can only arise from a non-error response whose
body explicitly carries state CANCELLED (invoices) resp. FAILED
(payments). -/
theorem c1_status_error_degradation :
    ∀ (checking_id : String) (resp : Except PyExc Response),
      (malformed_status_response resp →
        (StrikeWallet.get_invoice_status checking_id resp).1.paid = none ∧
        (StrikeWallet.get_payment_status checking_id resp).1.paid = none) ∧
      ((StrikeWallet.get_invoice_status checking_id resp).1.paid = some false →
        ∃ r b, resp = Except.ok r ∧ r.is_error = false ∧ r.body = some b ∧
          jsonGet b "state" = Except.ok (Json.str "CANCELLED")) ∧
      ((StrikeWallet.get_payment_status checking_id resp).1.paid = some false →
        ∃ r b, resp = Except.ok r ∧ r.is_error = false ∧ r.body = some b ∧
          jsonGet b "state" = Except.ok (Json.str "FAILED")) := by
  intro checking_id resp
  refine ⟨?_, ?_, ?_⟩
  · intro hm
    refine ⟨?_, payment_status_always_unknown checking_id resp⟩
    rcases hm with ⟨e, he⟩ | ⟨r, hr, hcase⟩
    · rw [he]; rfl
    · rcases r with ⟨ie, bd⟩
      rcases hcase with hie | hbd | ⟨b, hb, hst⟩
      · rw [hr]
        simp only at hie
        rw [hie]
        rfl
      · rw [hr]
        simp only at hbd
        rw [hbd]
        rcases ie <;> rfl
      · simp only at hb
        rcases ie
        · rw [hr, hb]
          rcases hj : jsonGet b "state" with e | v
          · unfold StrikeWallet.get_invoice_status invoice_status_try
            simp only [Response.json, hj]
            rfl
          · exact absurd hj (hst v)
        · rw [hr]; rfl
  · intro hfalse
    rcases resp with e | ⟨ie, bd⟩
    · exact absurd hfalse (by simp [StrikeWallet.get_invoice_status, invoice_status_try, PaymentPendingStatus])
    · rcases ie
      · rcases bd with _ | b
        · exact absurd hfalse (by simp [StrikeWallet.get_invoice_status, invoice_status_try,
            Response.json, PaymentPendingStatus])
        · rcases hj : jsonGet b "state" with e | st
          · unfold StrikeWallet.get_invoice_status invoice_status_try at hfalse
            simp only [Response.json, hj] at hfalse
            exact absurd hfalse (by simp [PaymentPendingStatus])
          · rcases hv : invoice_statuses st with e | v
            · unfold StrikeWallet.get_invoice_status invoice_status_try at hfalse
              simp only [Response.json, hj, hv] at hfalse
              exact absurd hfalse (by simp [PaymentPendingStatus])
            · unfold StrikeWallet.get_invoice_status invoice_status_try at hfalse
              simp only [Response.json, hj, hv] at hfalse
              have hvf : v = some false := hfalse
              rw [hvf] at hv
              exact ⟨⟨false, some b⟩, b, rfl, rfl, rfl,
                by rw [invoice_statuses_false_iff_cancelled st hv] at hj; exact hj⟩
      · exact absurd hfalse (by simp [StrikeWallet.get_invoice_status, invoice_status_try,
          PaymentPendingStatus])
  · intro hfalse
    rw [payment_status_always_unknown checking_id resp] at hfalse
    exact absurd hfalse (by simp)

/-- C1 witness: a transport error degrades both statuses to unknown. -/
theorem c1_degradation_witness :
    (StrikeWallet.get_invoice_status "i1" (Except.error PyExc.transportError)).1.paid = none ∧
    (StrikeWallet.get_payment_status "i1" (Except.error PyExc.transportError)).1.paid = none :=
  (c1_status_error_degradation "i1" (Except.error PyExc.transportError)).1
    (Or.inl ⟨PyExc.transportError, rfl⟩)

/-- C4 counterexample: the claim says every `InvoiceResponse` the adapter
returns satisfies the invariant.  `create_invoice` copies the provider's
`invoiceId` and `lnInvoice` values into the success response without
checking them, so a 2xx reply carrying `"invoiceId": null` produces
`ok = true` with `checking_id = None`, violating the invariant. -/
theorem c4_invariant_counterexample :
    (StrikeWallet.create_invoice ⟨"ep", "tok", "BTC"⟩ (fun _ _ => 0) 1000 (some "test") none
        ⟨Except.ok ⟨false, some (Json.obj [("invoiceId", Json.null)])⟩,
         Except.ok ⟨false, some (Json.obj [("lnInvoice", Json.str "lnbc1")])⟩⟩).1 =
      Except.ok ⟨true, Json.null, Json.str "lnbc1", Json.null⟩ ∧
    ¬ invoice_response_invariant ⟨true, Json.null, Json.str "lnbc1", Json.null⟩ := by
  constructor
  · rfl
  · intro h
    exact (h.1 rfl).1 rfl

/-- Extracting through `Except.map`. -/
theorem exceptMap_eq_ok {α β γ : Type} (f : β → γ) (x : Except α β) (v : γ)
    (h : x.map f = Except.ok v) : ∃ r, x = Except.ok r ∧ v = f r := by
  cases x with
  | error e => exact absurd h (by simp [Except.map])
  | ok b =>
      refine ⟨b, rfl, ?_⟩
      simp [Except.map] at h
      exact h.symm

/-- The `try` body of `status` only ever returns a `StatusResponse`; the
`InvoiceResponse` results of `status` all come from the handler tail. -/
theorem status_try_no_invoice (cfg : StrikeCfg) (f2s : ℚ → String → ℤ)
    (resp : Except PyExc Response) (r : InvoiceResponse)
    (h : status_try cfg f2s resp = Except.ok (StatusResult.invoice r)) : False := by
  rcases resp with e | ⟨ie, bd⟩
  · simp [status_try] at h
  · rcases ie
    · rcases bd with _ | b
      · simp [status_try, Response.raise_for_status, Response.json] at h
      · rcases hi : pyIter b with e | ws <;>
          simp [status_try, Response.raise_for_status, Response.json, hi] at h
        rcases hf : find_balance (StrikeWallet._current_currency cfg) ws with e | ob
        · simp [hf] at h
        · rcases ob with _ | bal
          · simp [hf] at h
          · rcases hp : pyFloat bal with e | q <;> simp [hf, hp] at h
    · simp [status_try, Response.raise_for_status] at h

/-- A response that survives `raise_for_status` and decodes to `j` is the
non-error response with body `j`. -/
theorem response_ok_shape (r : Response) (u : Unit) (j : Json)
    (h1 : r.raise_for_status = Except.ok u) (h2 : r.json = Except.ok j) :
    r = ⟨false, some j⟩ := by
  rcases r with ⟨ie, bd⟩
  rcases ie
  · rcases bd with _ | b
    · simp [Response.json] at h2
    · simp [Response.json] at h2
      rw [h2]
  · simp [Response.raise_for_status] at h1

/-- C4 amended: every `InvoiceResponse` returned on a failure branch of
`status`, `pay_invoice` or `create_invoice` satisfies the invariant
(`ok = false` with a string `error_message`); on the success branch of
`create_invoice`, `checking_id` and `payment_request` are exactly the
`invoiceId` and `lnInvoice` values of the provider's two non-error bodies —
hence present whenever the provider supplies non-null values, but the
adapter does not itself validate them (see the counterexample: a 2xx body
with `"invoiceId": null` yields `ok = true` with an absent
`checking_id`). -/
theorem c4_invariant_amended :
    ∀ (cfg : StrikeCfg) (f2s : ℚ → String → ℤ) (s2f : ℤ → String → ℚ)
      (amount fee : ℤ) (memo : Option String) (dh : Option (List ℕ))
      (bolt11 : String) (env : ProviderEnv) (resp : Except PyExc Response),
      (∀ r, (StrikeWallet.status cfg f2s resp).1 = Except.ok (StatusResult.invoice r) →
        invoice_response_invariant r) ∧
      (∀ r, (StrikeWallet.pay_invoice cfg f2s bolt11 fee env).1 = Except.ok (PayResult.invoice r) →
        invoice_response_invariant r) ∧
      (∀ r, (StrikeWallet.create_invoice cfg s2f amount memo dh env).1 = Except.ok r →
        (r.ok = false → invoice_response_invariant r) ∧
        (r.ok = true → r.error_message = Json.null ∧
          ∃ b1 b2, env.resp1 = Except.ok ⟨false, some b1⟩ ∧ env.resp2 = Except.ok ⟨false, some b2⟩ ∧
            jsonGet b1 "invoiceId" = Except.ok r.checking_id ∧
            jsonGet b2 "lnInvoice" = Except.ok r.payment_request)) := by
  intro cfg f2s s2f amount fee memo dh bolt11 env resp
  refine ⟨?_, ?_, ?_⟩
  · intro r h
    unfold StrikeWallet.status at h
    repeat' split at h
    all_goals simp only [] at h
    all_goals
      first
      | (rename_i v hst
         injection h with h2
         exact (status_try_no_invoice cfg f2s resp r (h2 ▸ hst)).elim)
      | (obtain ⟨r0, hr0, hv⟩ := exceptMap_eq_ok StatusResult.invoice _ _ h
         injection hv with hveq
         subst hveq
         exact invariant_of_shape _ (invoice_error_handler_shape cfg.endpoint _ _ hr0))
  · intro r h
    unfold StrikeWallet.pay_invoice at h
    repeat' split at h
    all_goals simp only [] at h
    all_goals
      first
      | (exact absurd h (by simp))
      | (obtain ⟨r0, hr0, hv⟩ := exceptMap_eq_ok PayResult.invoice _ _ h
         injection hv with hveq
         subst hveq
         exact invariant_of_shape _ (invoice_error_handler_shape cfg.endpoint _ _ hr0))
  · intro r h
    unfold StrikeWallet.create_invoice at h
    repeat' split at h
    all_goals simp only [] at h
    all_goals
      first
      | (injection h with hr
         rename_i resp1x r1 h1 x1 u1 h2 x2 body1 h3 x3 cid h4 resp2x r2 h5 x4 u2 h6 x5 body2 h7 x6 pr h8
         subst hr
         refine ⟨fun hfalse => absurd hfalse (by simp),
                 fun _ => ⟨rfl, body1, body2, ?_, ?_, h4, h8⟩⟩
         · rw [h1, response_ok_shape r1 u1 body1 h2 h3]
         · rw [h5, response_ok_shape r2 u2 body2 h6 h7])
      | (obtain ⟨hok, s, hmsg⟩ := invoice_error_handler_shape cfg.endpoint _ r h
         exact ⟨fun _ => invariant_of_shape r ⟨hok, s, hmsg⟩,
                fun htrue => by rw [htrue] at hok; exact Bool.noConfusion hok⟩)

/-- C4 witness: the generic transport-failure response of `create_invoice`
satisfies the invariant. -/
theorem c4_invariant_witness :
    invoice_response_invariant ⟨false, Json.null, Json.null,
      Json.str ("Unable to connect to " ++ "ep" ++ ".")⟩ :=
  ((c4_invariant_amended ⟨"ep", "tok", "BTC"⟩ (fun _ _ => 0) (fun _ _ => 0) 0 0 none none "b"
      ⟨Except.error PyExc.transportError, Except.error PyExc.transportError⟩
      (Except.error PyExc.transportError)).2.2
    ⟨false, Json.null, Json.null, Json.str ("Unable to connect to " ++ "ep" ++ ".")⟩ rfl).1 rfl

/-- C5: `create_invoice` performs the two-step handshake in order — first
POST `/invoices` with the settlement-currency amount (`amount / 100_000_000`
for BTC, else the fiat conversion), then POST `/invoices/{invoiceId}/quote`
whose payload carries the hex of `description_hash` exactly when one is
given (Python truthiness: present and non-empty) — and on two non-error
parseable replies returns `ok = true` with `checking_id` the provider's
`invoiceId` and `payment_request` the quote's `lnInvoice`. -/
theorem c5_create_invoice_handshake :
    ∀ (cfg : StrikeCfg) (s2f : ℤ → String → ℚ) (amount : ℤ) (memo : Option String)
      (dh : Option (List ℕ)) (b1 b2 : Json) (cid : String) (pr : Json),
      jsonGet b1 "invoiceId" = Except.ok (Json.str cid) →
      jsonGet b2 "lnInvoice" = Except.ok pr →
      StrikeWallet.create_invoice cfg s2f amount memo dh
          ⟨Except.ok ⟨false, some b1⟩, Except.ok ⟨false, some b2⟩⟩ =
        (Except.ok ⟨true, Json.str cid, pr, Json.null⟩,
         [⟨HttpMethod.post, "/invoices", some (invoice_payload cfg s2f amount memo)⟩,
          ⟨HttpMethod.post, "/invoices/" ++ cid ++ "/quote", some (quote_payload dh)⟩]) ∧
      (StrikeWallet._current_currency cfg = "BTC" →
        invoice_amount_json cfg s2f amount = Json.num ((amount : ℚ) / 100000000)) ∧
      (∀ l, dh = some l → l ≠ [] →
        quote_payload dh = Json.obj [("description_hash", Json.str (hexOfBytes l))]) ∧
      (dh = none → quote_payload dh = Json.obj []) := by
  intro cfg s2f amount memo dh b1 b2 cid pr h1 h2
  refine ⟨?_, ?_, ?_, ?_⟩
  · simp [StrikeWallet.create_invoice, Response.raise_for_status, Response.json, h1, h2, pyStr]
  · intro hbtc
    simp [invoice_amount_json, hbtc]
  · intro l hdh hne
    subst hdh
    have hl : l.isEmpty = false := by
      rcases l with _ | ⟨a, l2⟩
      · exact absurd rfl hne
      · rfl
    simp [quote_payload, hl]
  · intro hdh
    subst hdh
    rfl

/-- C5 witness: the spec's scenario — BTC settlement, amount 1000, provider
replies invoiceId "abc" and lnInvoice "lnbc1..." — yields the successful
response with those handles. -/
theorem c5_handshake_witness :
    (StrikeWallet.create_invoice ⟨"ep", "tok", "BTC"⟩ (fun _ _ => 0) 1000 (some "test") none
        ⟨Except.ok ⟨false, some (Json.obj [("invoiceId", Json.str "abc")])⟩,
         Except.ok ⟨false, some (Json.obj [("lnInvoice", Json.str "lnbc1...")])⟩⟩).1 =
      Except.ok ⟨true, Json.str "abc", Json.str "lnbc1...", Json.null⟩ :=
  congrArg Prod.fst
    ((c5_create_invoice_handshake ⟨"ep", "tok", "BTC"⟩ (fun _ _ => 0) 1000 (some "test") none
        (Json.obj [("invoiceId", Json.str "abc")]) (Json.obj [("lnInvoice", Json.str "lnbc1...")])
        "abc" (Json.str "lnbc1...") rfl rfl).1)

/-- C8: construction fails fast — `__init__` raises exactly when the
endpoint is missing (falsy), the token is missing, or the settlement
currency is missing or outside the fixed supported set; when all three are
valid it succeeds, and in every case it performs no provider request. -/
theorem c8_init_validation :
    ∀ s : StrikeSettings,
      ((∃ cfg, (StrikeWallet.init s).1 = Except.ok cfg) ↔
        (pyTruthy s.strike_api_endpoint = true ∧ pyTruthy s.strike_token = true ∧
         ∃ c, s.strike_currency = some c ∧ c ∈ supported_currencies)) ∧
      (StrikeWallet.init s).2 = [] := by
  have hne : ∀ c ∈ supported_currencies, (c == "") = false := by decide
  intro s
  rcases s with ⟨ep, tok, cur⟩
  constructor
  · rcases h1 : pyTruthy ep
    · simp [StrikeWallet.init, h1]
    · rcases h2 : pyTruthy tok
      · simp [StrikeWallet.init, h1, h2]
      · rcases cur with _ | c
        · have h0 : pyTruthy (none : Option String) = false := rfl
          simp [StrikeWallet.init, h1, h2, h0]
        · by_cases h3 : c ∈ supported_currencies
          · have hc : supported_currencies.contains c = true := List.elem_iff.mpr h3
            have hpt : pyTruthy (some c) = true := by simp [pyTruthy, hne c h3]
            simp [StrikeWallet.init, h1, h2, hpt, hc, h3]
          · have hc : supported_currencies.contains c = false := by
              rcases hcc : supported_currencies.contains c
              · rfl
              · exact absurd (List.elem_iff.mp hcc) h3
            simp [StrikeWallet.init, h1, h2, hc, h3]
  · unfold StrikeWallet.init
    repeat' split
    all_goals rfl

/-- C8 witness: a fully valid configuration constructs successfully. -/
theorem c8_init_witness :
    ∃ cfg, (StrikeWallet.init ⟨some "https://api.strike.me", some "tok", some "BTC"⟩).1 =
      Except.ok cfg :=
  (c8_init_validation ⟨some "https://api.strike.me", some "tok", some "BTC"⟩).1.mpr
    ⟨rfl, rfl, "BTC", rfl, by decide⟩

/-- C9: over every finite trace, the paid-invoices stream yields exactly a
prefix of the pushed checking_ids, one at a time in arrival order; it ends
in `stopped` only if some read of the running flag was false (it never
terminates of its own accord), and it is `blocked` — suspended on the empty
queue — only once it has drained everything pushed so far. -/
theorem c9_paid_invoices_stream_fifo :
    ∀ (flags : List Bool) (queue ys : List String) (e : StreamEnd),
      StrikeWallet.paid_invoices_stream flags queue = (ys, e) →
      (∃ rest, queue = ys ++ rest) ∧
      (e = StreamEnd.stopped → flags.contains false = true) ∧
      (e = StreamEnd.blocked → ys = queue) := by
  intro flags
  induction flags with
  | nil =>
      intro queue ys e h
      unfold StrikeWallet.paid_invoices_stream at h
      have h1 := congrArg Prod.fst h
      have h2 := congrArg Prod.snd h
      simp only [] at h1 h2
      subst h1
      subst h2
      exact ⟨⟨queue, rfl⟩, fun hc => StreamEnd.noConfusion hc, fun hc => StreamEnd.noConfusion hc⟩
  | cons f fs ih =>
      intro queue ys e h
      rcases f
      · unfold StrikeWallet.paid_invoices_stream at h
        have h1 := congrArg Prod.fst h
        have h2 := congrArg Prod.snd h
        simp only [] at h1 h2
        subst h1
        subst h2
        exact ⟨⟨queue, rfl⟩, fun _ => by simp [List.contains_cons],
               fun hc => StreamEnd.noConfusion hc⟩
      · rcases queue with _ | ⟨x, rest⟩
        · unfold StrikeWallet.paid_invoices_stream at h
          have h1 := congrArg Prod.fst h
          have h2 := congrArg Prod.snd h
          simp only [] at h1 h2
          subst h1
          subst h2
          exact ⟨⟨[], rfl⟩, fun hc => StreamEnd.noConfusion hc, fun _ => rfl⟩
        · unfold StrikeWallet.paid_invoices_stream at h
          have h1 := congrArg Prod.fst h
          have h2 := congrArg Prod.snd h
          simp only [] at h1 h2
          obtain ⟨⟨r2, hr2⟩, hst, hbl⟩ :=
            ih rest (StrikeWallet.paid_invoices_stream fs rest).1
              (StrikeWallet.paid_invoices_stream fs rest).2 rfl
          subst h1
          subst h2
          refine ⟨⟨r2, ?_⟩, fun he => ?_, fun he => ?_⟩
          · rw [List.cons_append, ← hr2]
          · have hfs : false ∈ fs := by
              have h3 := hst he
              simpa using h3
            simp [hfs]
          · rw [hbl he]

/-- C9 witness: with the flag read true then false and two pushed ids, the
stream yields the first id in order and then stops on the flag. -/
theorem c9_stream_witness :
    (∃ rest, ["a", "b"] = ["a"] ++ rest) ∧ [true, false].contains false = true :=
  ⟨(c9_paid_invoices_stream_fifo [true, false] ["a", "b"] ["a"] StreamEnd.stopped rfl).1,
   (c9_paid_invoices_stream_fifo [true, false] ["a", "b"] ["a"] StreamEnd.stopped rfl).2.1 rfl⟩

/-- After `connect`, the connection is in the room's member set. -/
theorem mem_connect_self (n : Notifier) (ws : ℕ) (room : String) :
    ws ∈ ((n.connect ws room).rooms room).getD [] := by
  unfold Notifier.connect
  rcases hr : n.rooms room with _ | ms
  · simp
  · rcases hc : ms.contains ws
    · have hmem : ws ∉ ms := by simpa using hc
      simp [hr, hmem]
    · have hmem : ws ∈ ms := by simpa using hc
      simp [hr, hmem]

/-- C10: a frame that is not valid JSON makes `json.loads` raise; only the
disconnect signal is caught, so the receive loop aborts without calling
`remove`: the connection survives in the room's member set and is still a
target of every subsequent fan-out to that room. -/
theorem c10_invalid_json_leaves_member :
    ∀ (loads : String → Except PyExc Json) (room : String) (ws : ℕ) (n : Notifier)
      (data : String) (e : PyExc),
      loads data = Except.error e →
      websocket_endpoint loads room ws n [WsEvent.frame data] =
        (n.connect ws room, [], WsOutcome.crashed e) ∧
      ws ∈ (((websocket_endpoint loads room ws n [WsEvent.frame data]).1).rooms room).getD [] ∧
      ∀ msg, (ws, msg) ∈
        Notifier._notify msg room (websocket_endpoint loads room ws n [WsEvent.frame data]).1 := by
  intro loads room ws n data e h
  have hrun : websocket_endpoint loads room ws n [WsEvent.frame data] =
      (n.connect ws room, [], WsOutcome.crashed e) := by
    unfold websocket_endpoint ws_loop
    rw [h]
  refine ⟨hrun, ?_, ?_⟩
  · rw [hrun]
    exact mem_connect_self n ws room
  · intro msg
    rw [hrun]
    unfold Notifier._notify
    exact List.mem_map.mpr ⟨ws, mem_connect_self n ws room, rfl⟩

/-- C10 witness: a concrete unparseable frame crashes the loop and the
sender remains a member of its room. -/
theorem c10_crash_witness :
    0 ∈ (((websocket_endpoint (fun _ => Except.error PyExc.jsonDecodeError) "room-1" 0
      ⟨fun _ => none⟩ [WsEvent.frame "not json"]).1).rooms "room-1").getD [] :=
  (c10_invalid_json_leaves_member (fun _ => Except.error PyExc.jsonDecodeError) "room-1" 0
    ⟨fun _ => none⟩ "not json" PyExc.jsonDecodeError rfl).2.1
